import Mathlib

/-!
Verification of the crowdfund-server core against its specification.

The development shallowly embeds the donation-processing pipeline
(POST /:id/donate handler in src/routes/funds.ts), the manual launch
handler (POST /:id/launch), the launch continuation that persists the
orchestrator's outcome, the "fund issuance wallet" step of the
orchestrator (src/utils/pumpfun.ts), and the on-chain payment verifier
(verifySolPayment in src/utils/solana.ts).  JavaScript numbers are
modelled as exact rationals; fallible code is modelled with Except and
Option; asynchronous I/O results (ledger balances, verification
outcomes, orchestrator results) are passed in as explicit parameters.
-/

namespace Crowdfund

/-- Campaign lifecycle status: the `status` field of a Fund document. -/
inductive FundStatus where
  | active
  | completed
deriving DecidableEq, Repr

/-- Launch lifecycle status: the non-null values of the `launchStatus` field. -/
inductive LaunchStatus where
  | pending
  | completed
  | failed
deriving DecidableEq, Repr

/-- The Fund (campaign) document, with the fields the core pipeline reads
and writes.  `userWalletAddress` stands for `fund.userId.walletAddress`
after population.  SOL amounts are exact rationals. -/
structure Fund where
  status : FundStatus
  currentDonatedSol : ℚ
  initialFeePaid : ℚ
  targetSolAmount : ℚ
  completedAt : Option ℚ
  launchStatus : Option LaunchStatus
  launchError : Option String
  tokenAddress : Option String
  pumpPortalApiKey : Option String
  pumpPortalWalletPublicKey : Option String
  pumpPortalPrivateKey : Option String
  pumpPortalTransferCompleted : Bool
  solscanUrl : Option String
  metadataUri : Option String
  fundPrivateKey : String
  fundWalletAddress : String
  userWalletAddress : String
  image : Option String
deriving DecidableEq, Repr

/-- The User (donor) document: the append-only donation list and the
running total, as in src/models/User.ts.  A donation entry is
(amount, donatedAt). -/
structure Donor where
  donations : List (ℚ × ℚ)
  totalDonatedSol : ℚ
deriving DecidableEq, Repr

/-- The configuration values the donate handler reads. -/
structure Config where
  minDonation : ℚ
  maxDonation : ℚ
deriving DecidableEq, Repr

/-- The body of a POST /:id/donate request.  `donorWallet` and
`txSignature` are `none` when the corresponding field is absent. -/
structure DonateRequest where
  amount : ℚ
  donorWallet : Option String
  txSignature : Option String
deriving DecidableEq, Repr

/-- Observable outcome of one donate-handler run: the persisted fund and
donor documents, the error message (if any), the launch-handoff amount
(`totalSolToTransfer` when the background launch is triggered), and the
value assigned to `fund.currentDonatedSol` after payment verification
(`none` when that line is never reached). -/
structure DonateOutcome where
  fund : Fund
  donor : Donor
  error : Option String
  launch : Option ℚ
  assigned : Option ℚ
deriving DecidableEq, Repr

/-- Outcome of a run that fails before any document is written. -/
def DonateOutcome.err (fund : Fund) (donor : Donor) (msg : String) : DonateOutcome :=
  { fund := fund, donor := donor, error := some msg, launch := none, assigned := none }

/-- The donation-processing task queued by the POST /:id/donate handler
(src/routes/funds.ts, lines 366-529).  `verifyOk` is the result of
`verifySolPayment` (true = verified; a false value also stands for the
verifier throwing, since in both cases the handler mutates nothing and
surfaces an error), `balance` is the fund-wallet balance read after
verification, `gasFeeReserve` the computed reserve, `now` the current
time.  Document mutations are persisted exactly where the source calls
`save` / `findOneAndUpdate`: on the balance-mismatch and
insufficient-funds aborts the fund document is left as stored (the
in-memory mutation is never saved) while the donor update has already
been written. -/
def donateHandler (cfg : Config) (req : DonateRequest) (fund : Fund) (donor : Donor)
    (verifyOk : Bool) (balance : ℚ) (gasFeeReserve : ℚ) (now : ℚ) : DonateOutcome :=
  if req.donorWallet = none ∨ req.txSignature = none then
    .err fund donor "Donor wallet address and transaction signature are required"
  else if req.amount < cfg.minDonation ∨ req.amount > cfg.maxDonation then
    .err fund donor "Donation amount must be between MIN_DONATION and MAX_DONATION SOL"
  else if fund.status = .completed then
    .err fund donor "Crowdfund is already completed. No further donations are accepted."
  else if fund.initialFeePaid = 0 then
    .err fund donor "Creation fee not yet paid. Please pay the creation fee first."
  else if ¬verifyOk then
    .err fund donor "Transaction does not contain valid SOL transfer"
  else
    let newCurrentDonatedSol := max 0 (balance - fund.initialFeePaid)
    let fund1 := { fund with currentDonatedSol := newCurrentDonatedSol }
    let donor1 : Donor :=
      { donations := donor.donations ++ [(req.amount, now)],
        totalDonatedSol := donor.totalDonatedSol + req.amount }
    if newCurrentDonatedSol ≥ fund.targetSolAmount then
      let fund2 := { fund1 with
        status := .completed, completedAt := some now, launchStatus := some .pending }
      let expectedBalance := fund2.initialFeePaid + fund2.currentDonatedSol
      if balance < expectedBalance - gasFeeReserve then
        { fund := fund, donor := donor1,
          error := some "Fund wallet balance is less than expected",
          launch := none, assigned := some newCurrentDonatedSol }
      else
        let donatedSol := fund2.currentDonatedSol
        let feeRaiseWallet := fund2.initialFeePaid * (3/10)
        let newInitialFeePaid := fund2.initialFeePaid - feeRaiseWallet
        let buffer := donatedSol * (1/100)
        let solForCreation := donatedSol - buffer
        let totalSolToTransfer := solForCreation + newInitialFeePaid
        if totalSolToTransfer ≤ 0 then
          { fund := fund, donor := donor1,
            error := some "Insufficient funds after reserving gas and buffer",
            launch := none, assigned := some newCurrentDonatedSol }
        else
          { fund := fund2, donor := donor1, error := none,
            launch := some totalSolToTransfer, assigned := some newCurrentDonatedSol }
    else
      { fund := fund1, donor := donor1, error := none,
        launch := none, assigned := some newCurrentDonatedSol }

/-- A fresh donor document with no history, as produced by the upsert. -/
def Donor.empty : Donor := { donations := [], totalDonatedSol := 0 }

/-- The campaign of the spec's concrete scenario: target 10, fee 1. -/
def scenarioFund : Fund :=
  { status := .active
    currentDonatedSol := 0
    initialFeePaid := 1
    targetSolAmount := 10
    completedAt := none
    launchStatus := none
    launchError := none
    tokenAddress := none
    pumpPortalApiKey := none
    pumpPortalWalletPublicKey := none
    pumpPortalPrivateKey := none
    pumpPortalTransferCompleted := false
    solscanUrl := none
    metadataUri := none
    fundPrivateKey := "sk"
    fundWalletAddress := "fundWallet"
    userWalletAddress := "creator"
    image := some "img" }

/-- Default config values (MIN_DONATION = 0.01, MAX_DONATION = 10). -/
def scenarioConfig : Config := { minDonation := 1/100, maxDonation := 10 }

/-- First scenario donation: 6 SOL arrives, wallet balance reads 7. -/
def scenarioRun1 : DonateOutcome :=
  donateHandler scenarioConfig
    { amount := 6, donorWallet := some "donor", txSignature := some "tx1" }
    scenarioFund .empty true 7 (1/20) 1

/-- Second scenario donation: 5 SOL arrives, wallet balance reads 11. -/
def scenarioRun2 : DonateOutcome :=
  donateHandler scenarioConfig
    { amount := 5, donorWallet := some "donor", txSignature := some "tx2" }
    scenarioRun1.fund .empty true 11 (1/20) 2

/-- One parsed instruction of an on-ledger transaction, as inspected by
verifySolPayment: either a parsed system-program transfer with source,
destination and lamports, or an instruction of any other shape. -/
inductive Instr where
  | systemTransfer (source destination : String) (lamports : ℤ)
  | other
deriving DecidableEq, Repr

/-- What one polling attempt of verifySolPayment observes: an
infrastructure error from the RPC call, a transaction not yet indexed
(null txInfo or slot 0), or the indexed transaction's instruction
list. -/
inductive PollResult where
  | infraError (msg : String)
  | notFound
  | found (instructions : List Instr)
deriving DecidableEq, Repr

/-- Lamports per SOL. -/
def LAMPORTS_PER_SOL : ℚ := 1000000000

/-- The instruction scan of verifySolPayment (src/utils/solana.ts lines
342-349): the first parsed system transfer whose source and destination
match exactly; returns its lamports. -/
def findTransfer (instructions : List Instr) (sender receiver : String) : Option ℤ :=
  instructions.findSome? fun i =>
    match i with
    | .systemTransfer source destination lamports =>
      if source = sender ∧ destination = receiver then some lamports else none
    | .other => none

/-- The body of one attempt of verifySolPayment's polling loop
(src/utils/solana.ts lines 327-366).  Every failure is a thrown error
(Except.error): a missing transaction, a transaction with no exactly
matching system transfer, a transfer below the required lamports, and
infrastructure errors all throw; only a successful verification returns
a boolean, and that boolean is true. -/
def attemptCheck (sender receiver : String) (requiredLamports : ℤ) :
    PollResult → Except String Bool
  | .infraError msg => .error msg
  | .notFound => .error "Transaction not found or not confirmed after max attempts"
  | .found instructions =>
    match findTransfer instructions sender receiver with
    | none => .error "No valid SOL transfer found in transaction"
    | some lamports =>
      if lamports < requiredLamports then
        .error "Transferred amount is less than required"
      else
        .ok true

/-- The retry loop of verifySolPayment: `n` attempts remain; a thrown
error is caught and retried unless the current attempt is the last, in
which case it propagates. -/
def verifyGo (check : ℕ → Except String Bool) : ℕ → ℕ → Except String Bool
  | _, 0 => .error "Unreachable code"
  | attempt, n + 1 =>
    match check attempt with
    | .ok b => .ok b
    | .error msg => if n = 0 then .error msg else verifyGo check (attempt + 1) n

/-- verifySolPayment (src/utils/solana.ts lines 313-369): polls the
ledger (modelled by the attempt-indexed oracle) up to maxRetries = 10
times; requiredLamports = floor(requiredAmount · LAMPORTS_PER_SOL). -/
def verifySolPayment (ledger : ℕ → PollResult) (senderWallet receiverWallet : String)
    (requiredAmount : ℚ) : Except String Bool :=
  verifyGo
    (fun attempt =>
      attemptCheck senderWallet receiverWallet
        ⌊requiredAmount * LAMPORTS_PER_SOL⌋ (ledger attempt))
    0 10

/-- A ledger on which the donor's transaction is indexed on every poll
but contains only a system transfer to the wrong destination, so
verification logically fails at every attempt. -/
def ledgerNoMatch : ℕ → PollResult :=
  fun _ => .found [.systemTransfer "alice" "mallory" 5000000000, .other]

/-- The JSON serialization of a Fund document returned to clients,
embedded from the FundSchema of src/models/Fund.ts and restricted to
the fields modelled here.  The schema declares neither a toJSON
transform nor select:false on any path, so Mongoose's default
serialization exposes every stored field: fundPrivateKey is a required
path (always present, hence deletable only by the handlers that remove
it) and pumpPortalPrivateKey an optional one (present once the
issuance wallet was created).  launchStatus is not a path of
FundSchema, so it is not part of the serialized document and is
omitted here. -/
structure FundJson where
  status : FundStatus
  currentDonatedSol : ℚ
  initialFeePaid : ℚ
  targetSolAmount : ℚ
  completedAt : Option ℚ
  launchError : Option String
  tokenAddress : Option String
  fundPrivateKey : Option String
  pumpPortalPrivateKey : Option String
  fundWalletAddress : String
deriving DecidableEq, Repr

/-- Serialization of a stored Fund document (fund.toJSON()): the stored
schema fields, unchanged. -/
def Fund.toJSON (f : Fund) : FundJson :=
  { status := f.status
    currentDonatedSol := f.currentDonatedSol
    initialFeePaid := f.initialFeePaid
    targetSolAmount := f.targetSolAmount
    completedAt := f.completedAt
    launchError := f.launchError
    tokenAddress := f.tokenAddress
    fundPrivateKey := some f.fundPrivateKey
    pumpPortalPrivateKey := f.pumpPortalPrivateKey
    fundWalletAddress := f.fundWalletAddress }

/-- One entry of the campaign-list response (GET / handler,
src/routes/funds.ts lines 320-336): the fund's JSON with
fundPrivateKey and pumpPortalPrivateKey deleted, paired with the
fetched balance (none when the balance fetch failed — the keys are
deleted on that path too). -/
def listFundEntry (f : Fund) (currentBalance : Option ℚ) : FundJson × Option ℚ :=
  ({ f.toJSON with fundPrivateKey := none, pumpPortalPrivateKey := none }, currentBalance)

/-- The single-fund detail response (GET /:id handler,
src/routes/funds.ts lines 834-861): the stored record's JSON as-is plus
the fetched balance. -/
def fundDetail (f : Fund) (currentBalance : Option ℚ) : FundJson × Option ℚ :=
  (f.toJSON, currentBalance)

end Crowdfund

namespace Crowdfund

/-- C1: with target 10 and initialFeePaid 1, a verified donation bringing
the balance to 7 leaves the campaign active with currentDonatedSol = 6;
a second verified donation bringing the balance to 11 gives
currentDonatedSol = 10 ≥ 10, so the status becomes completed,
completedAt is set, and the launch handoff amount is
totalSolToTransfer = (donatedSol − buffer) + (initialFeePaid − 0.3·initialFeePaid)
with buffer = 0.01·donatedSol, i.e. (11 − 1) − 0.1 + 0.7 = 10.6. -/
theorem donate_scenario_target10 :
    scenarioRun1.fund.status = .active ∧
    scenarioRun1.fund.currentDonatedSol = 6 ∧
    scenarioRun1.error = none ∧
    scenarioRun2.fund.status = .completed ∧
    scenarioRun2.fund.currentDonatedSol = 10 ∧
    scenarioRun2.fund.completedAt = some 2 ∧
    scenarioRun2.error = none ∧
    scenarioRun2.launch = some (53/5) ∧
    ((53 : ℚ)/5 = ((11 - 1) - (1/100) * (11 - 1)) + (1 - (3/10) * 1)) := by
  refine ⟨?_, ?_, ?_, ?_, ?_, ?_, ?_, ?_, ?_⟩ <;>
    norm_num [scenarioRun1, scenarioRun2, donateHandler, scenarioFund, scenarioConfig,
      DonateOutcome.err, Donor.empty, Option.some_ne_none,
      show (FundStatus.active = FundStatus.completed) = False from by simp]

/-- C10: the campaign-list read removes fundPrivateKey and
pumpPortalPrivateKey from every fund it returns, while the single-fund
detail read returns the stored record's serialization as-is, with both
key fields (fundPrivateKey always, pumpPortalPrivateKey when present)
included. -/
theorem list_redacts_keys_detail_does_not (f : Fund) (bal : Option ℚ) :
    (listFundEntry f bal).1.fundPrivateKey = none ∧
    (listFundEntry f bal).1.pumpPortalPrivateKey = none ∧
    (fundDetail f bal).1 = f.toJSON ∧
    (fundDetail f bal).1.fundPrivateKey = some f.fundPrivateKey ∧
    (fundDetail f bal).1.pumpPortalPrivateKey = f.pumpPortalPrivateKey :=
  ⟨rfl, rfl, rfl, rfl, rfl⟩

/-- C3: a donation request targeting a campaign whose status is
completed returns an error, whatever the amount, and neither the Fund
document nor the donor's User document is written. -/
theorem donate_completed_rejected (cfg : Config) (req : DonateRequest) (fund : Fund)
    (donor : Donor) (verifyOk : Bool) (balance gas now : ℚ)
    (h : fund.status = .completed) :
    (donateHandler cfg req fund donor verifyOk balance gas now).error.isSome ∧
    (donateHandler cfg req fund donor verifyOk balance gas now).fund = fund ∧
    (donateHandler cfg req fund donor verifyOk balance gas now).donor = donor := by
  unfold donateHandler
  split_ifs <;> simp_all [DonateOutcome.err]

/-- Witness for C3: an in-range verified donation against a completed
campaign is rejected without mutation. -/
theorem donate_completed_rejected_witness :
    (donateHandler scenarioConfig ⟨6, some "donor", some "tx"⟩
        { scenarioFund with status := .completed } .empty true 7 (1/20) 1).error.isSome ∧
    (donateHandler scenarioConfig ⟨6, some "donor", some "tx"⟩
        { scenarioFund with status := .completed } .empty true 7 (1/20) 1).fund =
      { scenarioFund with status := .completed } ∧
    (donateHandler scenarioConfig ⟨6, some "donor", some "tx"⟩
        { scenarioFund with status := .completed } .empty true 7 (1/20) 1).donor = .empty :=
  donate_completed_rejected scenarioConfig ⟨6, some "donor", some "tx"⟩
    { scenarioFund with status := .completed } .empty true 7 (1/20) 1 rfl

/-- C4: a donation request whose amount is strictly below MIN_DONATION
or strictly above MAX_DONATION returns an error and leaves both the
Fund document and the donor's User document unwritten. -/
theorem donate_out_of_range_rejected (cfg : Config) (req : DonateRequest) (fund : Fund)
    (donor : Donor) (verifyOk : Bool) (balance gas now : ℚ)
    (h : req.amount < cfg.minDonation ∨ req.amount > cfg.maxDonation) :
    (donateHandler cfg req fund donor verifyOk balance gas now).error.isSome ∧
    (donateHandler cfg req fund donor verifyOk balance gas now).fund = fund ∧
    (donateHandler cfg req fund donor verifyOk balance gas now).donor = donor := by
  unfold donateHandler
  split_ifs <;> simp_all [DonateOutcome.err]

/-- Witness for C4: a 100-SOL donation (above MAX_DONATION = 10) is
rejected without mutation. -/
theorem donate_out_of_range_rejected_witness :
    (donateHandler scenarioConfig ⟨100, some "donor", some "tx"⟩
        scenarioFund .empty true 7 (1/20) 1).error.isSome ∧
    (donateHandler scenarioConfig ⟨100, some "donor", some "tx"⟩
        scenarioFund .empty true 7 (1/20) 1).fund = scenarioFund ∧
    (donateHandler scenarioConfig ⟨100, some "donor", some "tx"⟩
        scenarioFund .empty true 7 (1/20) 1).donor = .empty :=
  donate_out_of_range_rejected scenarioConfig ⟨100, some "donor", some "tx"⟩
    scenarioFund .empty true 7 (1/20) 1 (Or.inr (by norm_num [scenarioConfig]))

/-- Helper: once a donation passes every admission guard and its payment
verifies, the value written to currentDonatedSol is
max(0, balance − initialFeePaid). -/
theorem donateHandler_assigned_eq (cfg : Config) (req : DonateRequest) (fund : Fund)
    (donor : Donor) (balance gas now : ℚ)
    (hW : req.donorWallet.isSome) (hT : req.txSignature.isSome)
    (hMin : cfg.minDonation ≤ req.amount) (hMax : req.amount ≤ cfg.maxDonation)
    (hS : fund.status = .active) (hF : fund.initialFeePaid ≠ 0) :
    (donateHandler cfg req fund donor true balance gas now).assigned =
      some (max 0 (balance - fund.initialFeePaid)) := by
  have h1 : ¬(req.donorWallet = none ∨ req.txSignature = none) := by
    rintro (h | h) <;> simp_all
  have h2 : ¬(req.amount < cfg.minDonation ∨ req.amount > cfg.maxDonation) := by
    push_neg
    exact ⟨hMin, hMax⟩
  have h3 : ¬(fund.status = .completed) := by
    rw [hS]
    simp
  unfold donateHandler
  rw [if_neg h1, if_neg h2, if_neg h3, if_neg hF]
  simp only [not_true, if_false, ite_false, Bool.not_true, not_false_eq_true]
  split_ifs <;> rfl

/-- C2: for every donation passing admission whose payment is verified,
the campaign's running total is assigned max(0, balance −
initialFeePaid) from the freshly read ledger balance; the value does
not depend on the previous total, so it is never the previous total
plus the donated amount. -/
theorem donate_total_balance_sourced (cfg : Config) (req : DonateRequest) (fund : Fund)
    (donor : Donor) (balance gas now : ℚ)
    (hW : req.donorWallet.isSome) (hT : req.txSignature.isSome)
    (hMin : cfg.minDonation ≤ req.amount) (hMax : req.amount ≤ cfg.maxDonation)
    (hS : fund.status = .active) (hF : fund.initialFeePaid ≠ 0) :
    (donateHandler cfg req fund donor true balance gas now).assigned =
      some (max 0 (balance - fund.initialFeePaid)) ∧
    ∀ prev : ℚ,
      (donateHandler cfg req { fund with currentDonatedSol := prev } donor
          true balance gas now).assigned =
        some (max 0 (balance - fund.initialFeePaid)) := by
  refine ⟨donateHandler_assigned_eq cfg req fund donor balance gas now hW hT hMin hMax hS hF,
    fun prev => ?_⟩
  exact donateHandler_assigned_eq cfg req { fund with currentDonatedSol := prev } donor
    balance gas now hW hT hMin hMax hS hF

/-- Witness for C2 at the concrete scenario campaign with a prior total
of 42: the assigned total is still max(0, 7 − 1) = 6. -/
theorem donate_total_balance_sourced_witness :
    (donateHandler scenarioConfig ⟨6, some "donor", some "tx"⟩
        scenarioFund .empty true 7 (1/20) 1).assigned =
      some (max 0 (7 - scenarioFund.initialFeePaid)) ∧
    (donateHandler scenarioConfig ⟨6, some "donor", some "tx"⟩
        { scenarioFund with currentDonatedSol := 42 } .empty true 7 (1/20) 1).assigned =
      some (max 0 (7 - scenarioFund.initialFeePaid)) :=
  ⟨(donate_total_balance_sourced scenarioConfig ⟨6, some "donor", some "tx"⟩
      scenarioFund .empty 7 (1/20) 1 rfl rfl (by norm_num [scenarioConfig])
      (by norm_num [scenarioConfig]) rfl (by norm_num [scenarioFund])).1,
   (donate_total_balance_sourced scenarioConfig ⟨6, some "donor", some "tx"⟩
      scenarioFund .empty 7 (1/20) 1 rfl rfl (by norm_num [scenarioConfig])
      (by norm_num [scenarioConfig]) rfl (by norm_num [scenarioFund])).2 42⟩

/-- C9: the balance-mismatch abort in the donate handler is unreachable:
when the completion branch is taken (currentDonatedSol ≥ targetSolAmount
with a positive target), currentDonatedSol = max(0, balance −
initialFeePaid) was derived from the same balance read, so
expectedBalance = initialFeePaid + currentDonatedSol equals balance and
the guard balance < expectedBalance − GAS_FEE_RESERVE is false for every
non-negative reserve; hence the handler never returns the mismatch
error. -/
theorem balance_mismatch_unreachable (cfg : Config) (req : DonateRequest) (fund : Fund)
    (donor : Donor) (verifyOk : Bool) (balance gas now : ℚ)
    (hT : 0 < fund.targetSolAmount) (hG : 0 ≤ gas)
    (hC : fund.targetSolAmount ≤ max 0 (balance - fund.initialFeePaid)) :
    ¬balance < fund.initialFeePaid + max 0 (balance - fund.initialFeePaid) - gas ∧
    (donateHandler cfg req fund donor verifyOk balance gas now).error ≠
      some "Fund wallet balance is less than expected" := by
  have hpos : 0 < max 0 (balance - fund.initialFeePaid) := lt_of_lt_of_le hT hC
  have hmax : max 0 (balance - fund.initialFeePaid) = balance - fund.initialFeePaid := by
    rcases le_total (balance - fund.initialFeePaid) 0 with h | h
    · rw [max_eq_left h] at hpos
      exact absurd hpos (lt_irrefl 0)
    · exact max_eq_right h
  have hbal : ¬balance < fund.initialFeePaid + max 0 (balance - fund.initialFeePaid) - gas := by
    rw [hmax]
    intro hlt
    linarith
  refine ⟨hbal, ?_⟩
  unfold donateHandler
  split_ifs <;> try simp_all [DonateOutcome.err]
  all_goals
    rw [if_neg (show ¬balance < balance - gas from by intro h; linarith)]
  all_goals split_ifs <;> simp

/-- Witness for C9 at the scenario campaign crossing its target:
balance 11, fee 1, target 10, reserve 0.05. -/
theorem balance_mismatch_unreachable_witness :
    (¬(11 : ℚ) < scenarioFund.initialFeePaid +
        max 0 (11 - scenarioFund.initialFeePaid) - 1/20) ∧
    (donateHandler scenarioConfig ⟨5, some "donor", some "tx"⟩
        scenarioFund .empty true 11 (1/20) 2).error ≠
      some "Fund wallet balance is less than expected" :=
  balance_mismatch_unreachable scenarioConfig ⟨5, some "donor", some "tx"⟩
    scenarioFund .empty true 11 (1/20) 2 (by norm_num [scenarioFund]) (by norm_num)
    (by norm_num [scenarioFund])

/-- Helper: one polling attempt of the verifier never produces the
boolean false — its only boolean result is true. -/
theorem attemptCheck_ok_true (sender receiver : String) (requiredLamports : ℤ)
    (p : PollResult) (b : Bool) (h : attemptCheck sender receiver requiredLamports p = .ok b) :
    b = true := by
  cases p <;> simp only [attemptCheck] at h
  · cases h
  · cases h
  · split at h
    · cases h
    · split at h
      · cases h
      · cases h
        rfl

/-- Helper: the retry loop returns ok true or an error whenever the
per-attempt check never returns ok false. -/
theorem verifyGo_true_or_error (check : ℕ → Except String Bool)
    (hc : ∀ a b, check a = .ok b → b = true) :
    ∀ n attempt, verifyGo check attempt n = .ok true ∨
      ∃ msg, verifyGo check attempt n = .error msg := by
  intro n
  induction n with
  | zero => exact fun attempt => .inr ⟨"Unreachable code", rfl⟩
  | succ n ih =>
    intro attempt
    unfold verifyGo
    cases hck : check attempt with
    | ok b =>
      have hb := hc attempt b hck
      subst hb
      exact .inl rfl
    | error msg =>
      by_cases hn : n = 0
      · subst hn
        exact .inr ⟨msg, by simp⟩
      · simpa [hn] using ih (attempt + 1)

/-- Counterexample to C8: with the transaction indexed on every attempt
but containing no system transfer to the expected receiver, the
verifier does not return false — the logical failure propagates as a
thrown error once the ten attempts are exhausted. -/
theorem verify_no_match_throws :
    verifySolPayment ledgerNoMatch "alice" "bob" 1 =
      .error "No valid SOL transfer found in transaction" ∧
    verifySolPayment ledgerNoMatch "alice" "bob" 1 ≠ .ok false := by
  constructor
  · rfl
  · intro h
    cases h

/-- C8 as amended: the verifier never returns false.  Every call either
returns true (some attempt found a matching system transfer with enough
lamports) or throws: a verification that logically fails (no exactly
matching transfer, or lamports below the required minimum) on the last
attempt propagates as an error, exactly like an infrastructure error
that persists through the last attempt. -/
theorem verify_never_returns_false (ledger : ℕ → PollResult)
    (senderWallet receiverWallet : String) (requiredAmount : ℚ) :
    verifySolPayment ledger senderWallet receiverWallet requiredAmount = .ok true ∨
    ∃ msg, verifySolPayment ledger senderWallet receiverWallet requiredAmount =
      .error msg := by
  unfold verifySolPayment
  exact verifyGo_true_or_error _
    (fun a b h => attemptCheck_ok_true _ _ _ _ _ h) 10 0

end Crowdfund
